import Mathlib

/-!
Shallow embedding of the pairing and message-relay service of the
Hidden Calculator Chat backend (src/xdserver/server.js and the
TypeScript route registration in src/unnamed/part_003, which define the
same endpoint logic).

The server keeps four in-memory JS Maps: pending pairing codes, active
pairs, per-pair message lists, and per-pair typing indicators.  JS Maps
and plain objects are modelled as association lists with unique keys;
`mset` replaces the value at an existing key in place (as Map.set does)
and appends new keys at the end, `mdel` removes the key, `mlookup` finds
the first binding.  Clock reads (Date.now) and randomness
(Math.random) are passed in as explicit parameters; ISO timestamp
strings are passed in as opaque string parameters.  Each HTTP handler
becomes a pure function from the request data and the current state to
the next state together with a response value.
-/

set_option maxRecDepth 100000

namespace CalcChat

/-- Entry of the pendingCodes map: code owner, absolute expiry time in
milliseconds, and the pair id bound at join time (null before join). -/
structure PendingCode where
  deviceId : String
  expiresAt : Nat
  pairId : Option String
deriving Repr, DecidableEq

/-- Entry of the pairs map: the two member device ids and the creation
timestamp (an ISO string in the source, opaque here). -/
structure Pair where
  device1Id : String
  device2Id : String
  createdAt : String
deriving Repr, DecidableEq

/-- A stored chat message. -/
structure Message where
  id : String
  senderId : String
  content : String
  timestamp : String
  read : Bool
deriving Repr, DecidableEq

/-- An HTTP response: either a JSON payload (res.json) or an error
status with its error string (res.status(...).json with an error field). -/
inductive ApiResponse (α : Type) where
  | ok : α → ApiResponse α
  | err : Nat → String → ApiResponse α
deriving Repr, DecidableEq

/-- First binding of a key in an association list (JS Map.get). -/
def mlookup {α : Type} (k : String) : List (String × α) → Option α
  | [] => none
  | e :: rest => if e.1 = k then some e.2 else mlookup k rest

/-- Key membership (JS Map.has). -/
def mhas {α : Type} (k : String) (l : List (String × α)) : Bool :=
  (mlookup k l).isSome

/-- JS Map.set: replace the value at an existing key in place, keeping
insertion order, or append a new binding at the end. -/
def mset {α : Type} (k : String) (v : α) : List (String × α) → List (String × α)
  | [] => [(k, v)]
  | e :: rest => if e.1 = k then (k, v) :: rest else e :: mset k v rest

/-- JS Map.delete: remove the binding of the key. -/
def mdel {α : Type} (k : String) : List (String × α) → List (String × α)
  | [] => []
  | e :: rest => if e.1 = k then rest else e :: mdel k rest

/-- Keys are pairwise distinct, as they always are in a JS Map. -/
def keysNodup {α : Type} (l : List (String × α)) : Prop :=
  (l.map Prod.fst).Nodup

/-- The whole in-memory server state: the four module-level Maps. -/
structure ServerState where
  pendingCodes : List (String × PendingCode)
  pairs : List (String × Pair)
  messages : List (String × List Message)
  typingIndicators : List (String × List (String × Nat))
deriving Repr, DecidableEq

/-- generateCode: Math.floor(1000 + Math.random() * 9000).toString().
The random draw Math.floor(Math.random() * 9000) is the parameter r,
reduced mod 9000 so that every Nat argument denotes a possible draw. -/
def generateCode (r : Nat) : String :=
  Nat.repr (1000 + r % 9000)

/-- cleanupExpiredCodes: delete every pending code with now greater than
its expiresAt. -/
def cleanupExpiredCodes (now : Nat) (s : ServerState) : ServerState :=
  { s with pendingCodes := s.pendingCodes.filter (fun e => !(decide (e.2.expiresAt < now))) }

/-- isTyping: a device's typing indicator is active when its recorded
timestamp exists, is truthy (a 0 timestamp is falsy in JS), and lies
within the last 3000 ms. -/
def isTyping (now : Nat) (pairId deviceId : String) (s : ServerState) : Bool :=
  match mlookup pairId s.typingIndicators with
  | none => false
  | some indicators =>
    match mlookup deviceId indicators with
    | none => false
    | some timestamp =>
      if timestamp = 0 then false else decide (now - timestamp < 3000)

/-- Loop body test of the already-paired check: some live pair contains
the device. -/
def deviceIsPaired (deviceId : String) (pairList : List (String × Pair)) : Bool :=
  pairList.any (fun e => e.2.device1Id == deviceId || e.2.device2Id == deviceId)

/-- The code-generation do/while loop.  rands i is the i-th random draw,
i is the number of attempts already made, fuel bounds the recursion (the
source loop always stops by the attempts guard within 100 iterations, so
fuel 100 is never exhausted).  Returns the last drawn code together with
the final value of attempts. -/
def genLoop (pending : List (String × PendingCode)) (rands : Nat → Nat) :
    Nat → Nat → String × Nat
  | i, 0 => (generateCode (rands i), i + 1)
  | i, fuel + 1 =>
    let code := generateCode (rands i)
    if mhas code pending && decide (i + 1 < 100) then
      genLoop pending rands (i + 1) fuel
    else
      (code, i + 1)

/-- Successful response body of POST /api/pair/generate. -/
structure GenerateOk where
  code : String
  expiresAt : Nat
deriving Repr, DecidableEq

/-- POST /api/pair/generate. -/
def pairGenerate (now : Nat) (rands : Nat → Nat) (deviceId : String)
    (s : ServerState) : ServerState × ApiResponse GenerateOk :=
  let s := cleanupExpiredCodes now s
  if deviceId = "" then
    (s, .err 400 "Device ID required")
  else if deviceIsPaired deviceId s.pairs then
    (s, .err 400 "Device already paired")
  else
    let res := genLoop s.pendingCodes rands 0 100
    if 100 ≤ res.2 then
      (s, .err 500 "Failed to generate unique code")
    else
      let expiresAt := now + 7 * 60 * 1000
      let pc : PendingCode := ⟨deviceId, expiresAt, none⟩
      ({ s with pendingCodes := mset res.1 pc s.pendingCodes },
       .ok ⟨res.1, expiresAt⟩)

/-- Successful response body of POST /api/pair/join. -/
structure JoinOk where
  pairId : String
  deviceId : String
  partnerDeviceId : String
deriving Repr, DecidableEq

/-- POST /api/pair/join.  freshPairId models uuidv4(), nowIso the ISO
timestamp string of the creation instant.  The deferred deletion of the
consumed code (setTimeout, 5 s) is a separate later event and not part
of this synchronous transition. -/
def pairJoin (now : Nat) (freshPairId nowIso : String) (deviceId code : String)
    (s : ServerState) : ServerState × ApiResponse JoinOk :=
  let s := cleanupExpiredCodes now s
  if deviceId = "" ∨ code = "" then
    (s, .err 400 "Device ID and code required")
  else if deviceIsPaired deviceId s.pairs then
    (s, .err 400 "Device already paired")
  else
    match mlookup code s.pendingCodes with
    | none => (s, .err 404 "Invalid or expired code")
    | some pendingCode =>
      if pendingCode.expiresAt < now then
        ({ s with pendingCodes := mdel code s.pendingCodes },
         .err 400 "Code expired")
      else if pendingCode.deviceId = deviceId then
        (s, .err 400 "Cannot pair with yourself")
      else
        ({ s with
            pairs := mset freshPairId ⟨pendingCode.deviceId, deviceId, nowIso⟩ s.pairs,
            messages := mset freshPairId [] s.messages,
            pendingCodes :=
              mset code { pendingCode with pairId := some freshPairId } s.pendingCodes },
         .ok ⟨freshPairId, deviceId, pendingCode.deviceId⟩)

/-- Successful response body of POST /api/send. -/
structure SendOk where
  messageId : String
  timestamp : String
deriving Repr, DecidableEq

/-- The 500-message retention step: after pushing, splice off the front
down to the last 500 entries. -/
def capMessages (l : List Message) : List Message :=
  if 500 < l.length then l.drop (l.length - 500) else l

/-- POST /api/send.  freshMsgId models uuidv4(), nowIso the ISO
timestamp.  Empty strings are the falsy values of the missing-field
check. -/
def sendMessage (freshMsgId nowIso : String) (pairId deviceId content : String)
    (s : ServerState) : ServerState × ApiResponse SendOk :=
  if pairId = "" ∨ deviceId = "" ∨ content = "" then
    (s, .err 400 "Pair ID, device ID, and content required")
  else
    match mlookup pairId s.pairs with
    | none => (s, .err 404 "Pair not found")
    | some pair =>
      if pair.device1Id ≠ deviceId ∧ pair.device2Id ≠ deviceId then
        (s, .err 403 "Not authorized")
      else
        let message : Message :=
          ⟨freshMsgId, deviceId, content.take 1000, nowIso, false⟩
        let pairMessages := (mlookup pairId s.messages).getD []
        let pairMessages := capMessages (pairMessages ++ [message])
        ({ s with messages := mset pairId pairMessages s.messages },
         .ok ⟨freshMsgId, nowIso⟩)

/-- Successful response body of GET /api/poll. -/
structure PollOk where
  messages : List Message
  partnerTyping : Bool
deriving Repr, DecidableEq

/-- GET /api/poll: a pure read; it returns the stored message list and
the partner's current typing flag and performs no state change. -/
def pollMessages (now : Nat) (pairId deviceId : String) (s : ServerState) :
    ServerState × ApiResponse PollOk :=
  if pairId = "" ∨ deviceId = "" then
    (s, .err 400 "Pair ID and device ID required")
  else
    match mlookup pairId s.pairs with
    | none => (s, .err 404 "Pair not found")
    | some pair =>
      if pair.device1Id ≠ deviceId ∧ pair.device2Id ≠ deviceId then
        (s, .err 403 "Not authorized")
      else
        let partnerDeviceId :=
          if pair.device1Id = deviceId then pair.device2Id else pair.device1Id
        let pairMessages := (mlookup pairId s.messages).getD []
        let partnerTyping := isTyping now pairId partnerDeviceId s
        (s, .ok ⟨pairMessages, partnerTyping⟩)

/-- POST /api/typing.  now models Date.now() at the request; typing is
the truthiness of the isTyping field of the body. -/
def setTyping (now : Nat) (pairId deviceId : String) (typing : Bool)
    (s : ServerState) : ServerState × ApiResponse Bool :=
  if pairId = "" ∨ deviceId = "" then
    (s, .err 400 "Pair ID and device ID required")
  else
    match mlookup pairId s.pairs with
    | none => (s, .err 404 "Pair not found")
    | some pair =>
      if pair.device1Id ≠ deviceId ∧ pair.device2Id ≠ deviceId then
        (s, .err 403 "Not authorized")
      else
        let indicators := (mlookup pairId s.typingIndicators).getD []
        let indicators :=
          if typing then mset deviceId now indicators else mdel deviceId indicators
        ({ s with typingIndicators := mset pairId indicators s.typingIndicators },
         .ok true)

/-- Body of the marking loop of POST /api/read: a message is flipped to
read when its id is in the supplied set and the caller is not its
sender; otherwise it is left as is. -/
def markReadStep (messageIds : List String) (deviceId : String) (m : Message) : Message :=
  if messageIds.contains m.id ∧ m.senderId ≠ deviceId then { m with read := true } else m

/-- The marking loop over the pair's message list. -/
def markReadList (messageIds : List String) (deviceId : String)
    (msgs : List Message) : List Message :=
  msgs.map (markReadStep messageIds deviceId)

/-- POST /api/read.  The source mutates matching message objects of the
stored array in place, so when the pair has no stored list nothing is
written; otherwise the stored list is replaced by its marked version. -/
def markRead (messageIds : List String) (pairId deviceId : String)
    (s : ServerState) : ServerState × ApiResponse Bool :=
  if pairId = "" ∨ deviceId = "" then
    (s, .err 400 "Pair ID, device ID, and message IDs required")
  else
    match mlookup pairId s.pairs with
    | none => (s, .err 404 "Pair not found")
    | some pair =>
      if pair.device1Id ≠ deviceId ∧ pair.device2Id ≠ deviceId then
        (s, .err 403 "Not authorized")
      else
        match mlookup pairId s.messages with
        | none => (s, .ok true)
        | some msgs =>
          ({ s with messages := mset pairId (markReadList messageIds deviceId msgs) s.messages },
           .ok true)

/-! ### Association-list (JS Map) lemmas -/

theorem mlookup_mset_self {α : Type} (k : String) (v : α) (l : List (String × α)) :
    mlookup k (mset k v l) = some v := by
  induction l with
  | nil => simp [mset, mlookup]
  | cons e rest ih =>
    by_cases h : e.1 = k
    · simp [mset, h, mlookup]
    · simp [mset, h, mlookup, ih]

theorem mlookup_mset_ne {α : Type} (k k' : String) (v : α) (l : List (String × α))
    (h : k' ≠ k) : mlookup k' (mset k v l) = mlookup k' l := by
  induction l with
  | nil =>
    simp only [mset, mlookup]
    rw [if_neg (fun hh : k = k' => h hh.symm)]
  | cons e rest ih =>
    by_cases he : e.1 = k
    · simp only [mset, if_pos he, mlookup]
      rw [if_neg (fun hh : k = k' => h hh.symm),
          if_neg (fun hh : e.1 = k' => h ((he.symm.trans hh).symm ▸ rfl))]
    · simp only [mset, if_neg he, mlookup, ih]

theorem mem_mset_self {α : Type} (k : String) (v : α) (l : List (String × α)) :
    (k, v) ∈ mset k v l := by
  induction l with
  | nil => simp [mset]
  | cons e rest ih =>
    by_cases h : e.1 = k
    · simp [mset, h]
    · simp only [mset, if_neg h, List.mem_cons]
      exact Or.inr ih

theorem mem_keys_of_mem_mset {α : Type} {k k' : String} {v : α}
    {l : List (String × α)} (h : k' ∈ (mset k v l).map Prod.fst) :
    k' = k ∨ k' ∈ l.map Prod.fst := by
  induction l with
  | nil =>
    simp [mset] at h
    exact Or.inl h
  | cons e rest ih =>
    by_cases he : e.1 = k
    · simp only [mset, if_pos he, List.map_cons, List.mem_cons] at h
      rcases h with h | h
      · exact Or.inl h
      · exact Or.inr (by simp only [List.map_cons, List.mem_cons]; exact Or.inr h)
    · simp only [mset, if_neg he, List.map_cons, List.mem_cons] at h
      rcases h with h | h
      · exact Or.inr (by simp only [List.map_cons, List.mem_cons]; exact Or.inl h)
      · rcases ih h with h' | h'
        · exact Or.inl h'
        · exact Or.inr (by simp only [List.map_cons, List.mem_cons]; exact Or.inr h')

theorem keysNodup_mset {α : Type} (k : String) (v : α) (l : List (String × α))
    (h : keysNodup l) : keysNodup (mset k v l) := by
  induction l with
  | nil => simp [keysNodup, mset]
  | cons e rest ih =>
    have hh := List.nodup_cons.mp h
    by_cases he : e.1 = k
    · unfold keysNodup
      simp only [mset, if_pos he, List.map_cons, List.nodup_cons]
      exact ⟨he ▸ hh.1, hh.2⟩
    · unfold keysNodup
      simp only [mset, if_neg he, List.map_cons, List.nodup_cons]
      refine ⟨?_, ih hh.2⟩
      intro hm
      rcases mem_keys_of_mem_mset hm with h' | h'
      · exact he h'
      · exact hh.1 h'

theorem keysNodup_filter {α : Type} (p : String × α → Bool) (l : List (String × α))
    (h : keysNodup l) : keysNodup (l.filter p) := by
  unfold keysNodup at h ⊢
  exact List.Nodup.sublist ((List.filter_sublist l).map Prod.fst) h

theorem mem_keys_of_mlookup {α : Type} {k : String} {l : List (String × α)} {v : α}
    (h : mlookup k l = some v) : k ∈ l.map Prod.fst := by
  induction l with
  | nil => simp [mlookup] at h
  | cons e rest ih =>
    by_cases he : e.1 = k
    · simp [he.symm]
    · simp [mlookup, he] at h
      simp [ih h]

theorem mlookup_eq_none_of_not_mem {α : Type} {k : String} {l : List (String × α)}
    (h : k ∉ l.map Prod.fst) : mlookup k l = none := by
  cases hl : mlookup k l with
  | none => rfl
  | some v => exact absurd (mem_keys_of_mlookup hl) h

theorem mlookup_filter_of_pos {α : Type} (p : String × α → Bool) {k : String} {v : α}
    {l : List (String × α)} (h : mlookup k l = some v) (hp : p (k, v) = true) :
    mlookup k (l.filter p) = some v := by
  induction l with
  | nil => simp [mlookup] at h
  | cons e rest ih =>
    by_cases he : e.1 = k
    · simp [mlookup, he] at h
      have hev : e = (k, v) := by
        obtain ⟨e1, e2⟩ := e
        simp at he h
        simp [he, h]
      rw [hev]
      simp [List.filter, hp, mlookup]
    · simp [mlookup, he] at h
      cases hpe : p e with
      | true => simpa [List.filter_cons, hpe, mlookup, he] using ih h
      | false => simpa [List.filter_cons, hpe] using ih h

theorem keysNodup_tail {α : Type} {e : String × α} {rest : List (String × α)}
    (h : keysNodup (e :: rest)) : keysNodup rest :=
  (List.nodup_cons.mp h).2

theorem keysNodup_head_not_mem {α : Type} {e : String × α} {rest : List (String × α)}
    (h : keysNodup (e :: rest)) : e.1 ∉ rest.map Prod.fst :=
  (List.nodup_cons.mp h).1

theorem mlookup_filter_none {α : Type} (p : String × α → Bool) {k : String} {v : α}
    {l : List (String × α)} (hnd : keysNodup l) (h : mlookup k l = some v)
    (hp : p (k, v) = false) : mlookup k (l.filter p) = none := by
  induction l with
  | nil => simp [mlookup] at h
  | cons e rest ih =>
    by_cases he : e.1 = k
    · simp [mlookup, he] at h
      have hev : e = (k, v) := by
        obtain ⟨e1, e2⟩ := e
        simp at he h
        simp [he, h]
      subst hev
      simp only [List.filter_cons, hp, Bool.false_eq_true, if_neg, reduceIte]
      apply mlookup_eq_none_of_not_mem
      intro hm
      apply keysNodup_head_not_mem hnd
      simp only [List.mem_map] at hm ⊢
      rcases hm with ⟨a, hab, hk⟩
      exact ⟨a, (List.mem_filter.mp hab).1, hk⟩
    · simp [mlookup, he] at h
      cases hpe : p e with
      | true => simpa [List.filter_cons, hpe, mlookup, he] using ih (keysNodup_tail hnd) h
      | false => simpa [List.filter_cons, hpe] using ih (keysNodup_tail hnd) h

theorem mlookup_mdel_self {α : Type} {k : String} {l : List (String × α)}
    (hnd : keysNodup l) : mlookup k (mdel k l) = none := by
  induction l with
  | nil => simp [mdel, mlookup]
  | cons e rest ih =>
    by_cases he : e.1 = k
    · simp [mdel, he]
      apply mlookup_eq_none_of_not_mem
      rw [← he]
      exact keysNodup_head_not_mem hnd
    · simp [mdel, he, mlookup, ih (keysNodup_tail hnd)]

theorem mset_mset_self {α : Type} (k : String) (v w : α) (l : List (String × α)) :
    mset k v (mset k w l) = mset k v l := by
  induction l with
  | nil => simp [mset]
  | cons e rest ih =>
    by_cases he : e.1 = k
    · simp [mset, he]
    · simp [mset, he, ih]

/-! ### Retention-cap lemmas -/

theorem capMessages_eq_drop (l : List Message) :
    capMessages l = l.drop (l.length - 500) := by
  unfold capMessages
  by_cases h : 500 < l.length
  · rw [if_pos h]
  · rw [if_neg h]
    have h0 : l.length - 500 = 0 := by omega
    rw [h0, List.drop_zero]

theorem capMessages_length_le (l : List Message) :
    (capMessages l).length ≤ 500 := by
  rw [capMessages_eq_drop, List.length_drop]
  omega

theorem foldl_cap_aux (ms : List Message) : ∀ l : List Message, l.length ≤ 500 →
    List.foldl (fun acc m => capMessages (acc ++ [m])) l ms
      = (l ++ ms).drop ((l ++ ms).length - 500) := by
  induction ms with
  | nil =>
    intro l h
    simp only [List.foldl_nil, List.append_nil]
    have h0 : l.length - 500 = 0 := by omega
    rw [h0, List.drop_zero]
  | cons m ms ih =>
    intro l h
    rw [List.foldl_cons]
    show List.foldl (fun acc m => capMessages (acc ++ [m])) (capMessages (l ++ [m])) ms = _
    rw [capMessages_eq_drop (l ++ [m])]
    have hlen : (l ++ [m]).length = l.length + 1 := by simp
    by_cases hc : l.length < 500
    · have h0 : (l ++ [m]).length - 500 = 0 := by omega
      rw [h0, List.drop_zero, ih (l ++ [m]) (by omega)]
      rw [List.append_assoc, List.singleton_append]
    · have h5 : l.length = 500 := by omega
      have h1 : (l ++ [m]).length - 500 = 1 := by omega
      rw [h1]
      have hd1 : ((l ++ [m]).drop 1).length = 500 := by
        rw [List.length_drop]
        omega
      rw [ih ((l ++ [m]).drop 1) (by omega)]
      have hsplit : (l ++ [m]).drop 1 ++ ms = ((l ++ [m]) ++ ms).drop 1 :=
        (List.drop_append_of_le_length (by omega)).symm
      rw [hsplit, List.drop_drop, ← List.append_cons]
      congr 1
      rw [List.length_drop]
      simp only [List.length_append, List.length_cons]
      omega

theorem foldl_cap (ms : List Message) :
    List.foldl (fun acc m => capMessages (acc ++ [m])) [] ms
      = ms.drop (ms.length - 500) := by
  have h := foldl_cap_aux ms [] (by simp)
  simpa using h

/-! ### Poll is a pure read -/

theorem poll_fst (now : Nat) (pairId deviceId : String) (s : ServerState) :
    (pollMessages now pairId deviceId s).1 = s := by
  unfold pollMessages
  split
  · rfl
  split
  · rfl
  split <;> rfl

/-- Concrete state for the C1 counterexample: one pair of devices A and B
with a single unread message sent by A. -/
def pollPairState : ServerState :=
  ⟨[], [("p", ⟨"A", "B", "t0"⟩)], [("p", [⟨"m1", "A", "hi", "t1", false⟩])], []⟩

/-- C1 counterexample: in a pair of A and B holding one unread message
from A, a poll by B leaves the state unchanged, and a subsequent poll by
B still returns the message with read = false — refuting both that poll
marks unread partner messages as read and that a second poll returns
read = true. -/
theorem C1_counterexample :
    (pollMessages 0 "p" "B" pollPairState).1 = pollPairState ∧
    (pollMessages 5 "p" "B" (pollMessages 0 "p" "B" pollPairState).1).2 =
      ApiResponse.ok ⟨[⟨"m1", "A", "hi", "t1", false⟩], false⟩ :=
  ⟨rfl, rfl⟩

/-- C1 (amended): the poll endpoint performs no writes at all — it never
marks any message as read; consequently every poll, first or subsequent,
returns exactly what a poll of the untouched state would return, and a
message sent by one device keeps read = false in every poll response by
the recipient until an explicit /read call changes it. -/
theorem C1_poll_never_marks_read (now now' : Nat)
    (pairId deviceId pairId' deviceId' : String) (s : ServerState) :
    (pollMessages now pairId deviceId s).1 = s ∧
    (pollMessages now' pairId' deviceId' ((pollMessages now pairId deviceId s).1)).2 =
      (pollMessages now' pairId' deviceId' s).2 := by
  refine ⟨poll_fst now pairId deviceId s, ?_⟩
  rw [poll_fst now pairId deviceId s]

/-- C10: a send whose content is the empty string is rejected by the
missing-field check with HTTP 400 before any pair lookup, for every
state and every pair and device id, and the state is left unchanged —
the empty string can never be stored as a message. -/
theorem C10_empty_content_rejected (freshMsgId nowIso pairId deviceId : String)
    (s : ServerState) :
    sendMessage freshMsgId nowIso pairId deviceId "" s
      = (s, .err 400 "Pair ID, device ID, and content required") := by
  unfold sendMessage
  rw [if_pos (Or.inr (Or.inr rfl))]

/-! ### Send: success shape and the retention cap -/

theorem send_ok_state (freshMsgId nowIso pairId deviceId content : String)
    (s : ServerState) (r : SendOk)
    (h : (sendMessage freshMsgId nowIso pairId deviceId content s).2 = .ok r) :
    sendMessage freshMsgId nowIso pairId deviceId content s
      = ({ s with messages := mset pairId (capMessages (((mlookup pairId s.messages).getD []) ++ [⟨freshMsgId, deviceId, content.take 1000, nowIso, false⟩])) s.messages },
         .ok ⟨freshMsgId, nowIso⟩) := by
  unfold sendMessage at h ⊢
  split at h
  next h1 => simp at h
  next h1 =>
    rw [if_neg h1]
    split at h
    next hp => simp at h
    next pair hp =>
      split at h
      next hauth => simp at h
      next hauth =>
        simp only [hp]
        rw [if_neg hauth]

/-- C2: after a successful send, the stored list of the pair becomes the
old list with the new message appended and then capped, the cap keeps at
most 500 messages by dropping exactly the oldest entries from the front
(FIFO order preserved), and iterating the append-then-cap step from an
empty list over any sequence of messages retains exactly the last 500 of
them — in particular 501 sequential sends leave exactly 500 messages
whose earliest is the 2nd one sent (the tail of the sequence). -/
theorem C2_send_cap (freshMsgId nowIso pairId deviceId content : String)
    (s : ServerState) (r : SendOk)
    (h : (sendMessage freshMsgId nowIso pairId deviceId content s).2 = .ok r) :
    (sendMessage freshMsgId nowIso pairId deviceId content s).1.messages
      = mset pairId
          (capMessages (((mlookup pairId s.messages).getD []) ++
            [⟨freshMsgId, deviceId, content.take 1000, nowIso, false⟩]))
          s.messages
  ∧ (∀ l : List Message, capMessages l = l.drop (l.length - 500) ∧ (capMessages l).length ≤ 500)
  ∧ (∀ ms : List Message,
      List.foldl (fun acc m => capMessages (acc ++ [m])) [] ms = ms.drop (ms.length - 500))
  ∧ (∀ ms : List Message, ms.length = 501 →
      List.foldl (fun acc m => capMessages (acc ++ [m])) [] ms = ms.tail ∧
      (List.foldl (fun acc m => capMessages (acc ++ [m])) [] ms).length = 500) := by
  refine ⟨?_, fun l => ⟨capMessages_eq_drop l, capMessages_length_le l⟩, foldl_cap, ?_⟩
  · rw [send_ok_state freshMsgId nowIso pairId deviceId content s r h]
  · intro ms h501
    constructor
    · rw [foldl_cap, h501, List.drop_one]
    · rw [foldl_cap, List.length_drop]
      omega

/-- Concrete state for the C2 witness: one pair of A and B with an empty
message list. -/
def sendCapState : ServerState :=
  ⟨[], [("p", ⟨"A", "B", "t0"⟩)], [("p", [])], []⟩

theorem C2_send_cap_witness :
    (sendMessage "m1" "t1" "p" "A" "hi" sendCapState).2 = ApiResponse.ok ⟨"m1", "t1"⟩ ∧
    ((sendMessage "m1" "t1" "p" "A" "hi" sendCapState).1.messages
      = mset "p"
          (capMessages (((mlookup "p" sendCapState.messages).getD []) ++
            [⟨"m1", "A", "hi".take 1000, "t1", false⟩]))
          sendCapState.messages
  ∧ (∀ l : List Message, capMessages l = l.drop (l.length - 500) ∧ (capMessages l).length ≤ 500)
  ∧ (∀ ms : List Message,
      List.foldl (fun acc m => capMessages (acc ++ [m])) [] ms = ms.drop (ms.length - 500))
  ∧ (∀ ms : List Message, ms.length = 501 →
      List.foldl (fun acc m => capMessages (acc ++ [m])) [] ms = ms.tail ∧
      (List.foldl (fun acc m => capMessages (acc ++ [m])) [] ms).length = 500)) :=
  ⟨rfl, C2_send_cap "m1" "t1" "p" "A" "hi" sendCapState ⟨"m1", "t1"⟩ rfl⟩

/-! ### markRead properties -/

theorem markReadStep_idem (ids : List String) (d : String) (m : Message) :
    markReadStep ids d (markReadStep ids d m) = markReadStep ids d m := by
  unfold markReadStep
  by_cases h : ids.contains m.id ∧ m.senderId ≠ d
  · rw [if_pos h, if_pos h]
  · rw [if_neg h, if_neg h]

theorem markReadList_idem (ids : List String) (d : String) (msgs : List Message) :
    markReadList ids d (markReadList ids d msgs) = markReadList ids d msgs := by
  induction msgs with
  | nil => rfl
  | cons m ms ih =>
    unfold markReadList at ih ⊢
    simp only [List.map_cons, List.mem_cons]
    rw [markReadStep_idem]
    rw [show (List.map (markReadStep ids d) ms).map (markReadStep ids d) = List.map (markReadStep ids d) ms from ih]

theorem markRead_eq_of (ids : List String) (pairId deviceId : String)
    (s : ServerState) (pair : Pair) (msgs : List Message)
    (h1 : ¬(pairId = "" ∨ deviceId = ""))
    (hp : mlookup pairId s.pairs = some pair)
    (hauth : ¬(pair.device1Id ≠ deviceId ∧ pair.device2Id ≠ deviceId))
    (hm : mlookup pairId s.messages = some msgs) :
    markRead ids pairId deviceId s
      = ({ s with messages := mset pairId (markReadList ids deviceId msgs) s.messages },
         .ok true) := by
  unfold markRead
  rw [if_neg h1]
  simp only [hp]
  rw [if_neg hauth]
  simp only [hm]

theorem markRead_ok (ids : List String) (pairId deviceId : String)
    (s : ServerState) (pair : Pair)
    (h1 : ¬(pairId = "" ∨ deviceId = ""))
    (hp : mlookup pairId s.pairs = some pair)
    (hauth : ¬(pair.device1Id ≠ deviceId ∧ pair.device2Id ≠ deviceId)) :
    (markRead ids pairId deviceId s).2 = ApiResponse.ok true := by
  unfold markRead
  rw [if_neg h1]
  simp only [hp]
  rw [if_neg hauth]
  cases hm : mlookup pairId s.messages with
  | none => rfl
  | some msgs => rfl

theorem markRead_idem (ids : List String) (pairId deviceId : String) (s : ServerState) :
    (markRead ids pairId deviceId ((markRead ids pairId deviceId s).1)).1
      = (markRead ids pairId deviceId s).1 := by
  by_cases h1 : pairId = "" ∨ deviceId = ""
  · have e1 : (markRead ids pairId deviceId s).1 = s := by
      unfold markRead
      rw [if_pos h1]
    rw [e1]
    exact e1
  · cases hp : mlookup pairId s.pairs with
    | none =>
      have e1 : (markRead ids pairId deviceId s).1 = s := by
        unfold markRead
        rw [if_neg h1]
        simp only [hp]
      rw [e1]
      exact e1
    | some pair =>
      by_cases hauth : pair.device1Id ≠ deviceId ∧ pair.device2Id ≠ deviceId
      · have e1 : (markRead ids pairId deviceId s).1 = s := by
          unfold markRead
          rw [if_neg h1]
          simp only [hp]
          rw [if_pos hauth]
        rw [e1]
        exact e1
      · cases hm : mlookup pairId s.messages with
        | none =>
          have e1 : (markRead ids pairId deviceId s).1 = s := by
            unfold markRead
            rw [if_neg h1]
            simp only [hp]
            rw [if_neg hauth]
            simp only [hm]
          rw [e1]
          exact e1
        | some msgs =>
          have h1st : (markRead ids pairId deviceId s).1 = { s with messages := mset pairId (markReadList ids deviceId msgs) s.messages } := by
            rw [markRead_eq_of ids pairId deviceId s pair msgs h1 hp hauth hm]
          rw [h1st]
          have h2nd : (markRead ids pairId deviceId { s with messages := mset pairId (markReadList ids deviceId msgs) s.messages }).1 = { s with messages := mset pairId (markReadList ids deviceId (markReadList ids deviceId msgs)) (mset pairId (markReadList ids deviceId msgs) s.messages) } := by
            rw [markRead_eq_of ids pairId deviceId { s with messages := mset pairId (markReadList ids deviceId msgs) s.messages } pair (markReadList ids deviceId msgs) h1 hp hauth (mlookup_mset_self pairId (markReadList ids deviceId msgs) s.messages)]
          rw [h2nd, markReadList_idem, mset_mset_self]

/-- C3: the /read operation is idempotent on the state; the per-message
marking step never flips read from true back to false, leaves a message
untouched when the reader is its sender or when its id is not in the
supplied set (unknown ids are ignored), only ever sets read on a message
of the other sender whose id was supplied; and for an authorized member
of an existing pair the endpoint always answers success, whatever ids
are supplied. -/
theorem C3_markRead (ids : List String) (pairId deviceId : String) (s : ServerState) :
    (markRead ids pairId deviceId ((markRead ids pairId deviceId s).1)).1
      = (markRead ids pairId deviceId s).1
  ∧ (∀ m : Message, m.read = true → (markReadStep ids deviceId m).read = true)
  ∧ (∀ m : Message, m.senderId = deviceId → markReadStep ids deviceId m = m)
  ∧ (∀ m : Message, ids.contains m.id = false → markReadStep ids deviceId m = m)
  ∧ (∀ m : Message, (markReadStep ids deviceId m).read = true →
      m.read = true ∨ (ids.contains m.id = true ∧ m.senderId ≠ deviceId))
  ∧ (∀ pair : Pair, mlookup pairId s.pairs = some pair →
      ¬(pair.device1Id ≠ deviceId ∧ pair.device2Id ≠ deviceId) →
      ¬(pairId = "" ∨ deviceId = "") →
      (markRead ids pairId deviceId s).2 = ApiResponse.ok true) := by
  refine ⟨markRead_idem ids pairId deviceId s, ?_, ?_, ?_, ?_, ?_⟩
  · intro m hm
    unfold markReadStep
    by_cases h : ids.contains m.id ∧ m.senderId ≠ deviceId
    · rw [if_pos h]
    · rw [if_neg h]
      exact hm
  · intro m hm
    unfold markReadStep
    rw [if_neg]
    intro hc
    exact hc.2 hm
  · intro m hm
    unfold markReadStep
    rw [if_neg]
    intro hc
    rw [hm] at hc
    exact absurd hc.1 (by simp)
  · intro m hm
    unfold markReadStep at hm
    by_cases h : ids.contains m.id ∧ m.senderId ≠ deviceId
    · exact Or.inr ⟨h.1, h.2⟩
    · rw [if_neg h] at hm
      exact Or.inl hm
  · intro pair hp hauth h1
    exact markRead_ok ids pairId deviceId s pair h1 hp hauth

/-- Concrete state for the C3 witness: a pair of A and B with one unread
message from A. -/
def readState : ServerState :=
  ⟨[], [("p", ⟨"A", "B", "t0"⟩)], [("p", [⟨"m1", "A", "hi", "t1", false⟩])], []⟩

theorem C3_markRead_witness :
    mlookup "p" readState.pairs = some ⟨"A", "B", "t0"⟩
  ∧ ¬((Pair.mk "A" "B" "t0").device1Id ≠ "B" ∧ (Pair.mk "A" "B" "t0").device2Id ≠ "B")
  ∧ ¬(("p" : String) = "" ∨ ("B" : String) = "")
  ∧ (markRead ["m1", "zz"] "p" "B" readState).2 = ApiResponse.ok true :=
  ⟨rfl, by simp, by simp,
   (C3_markRead ["m1", "zz"] "p" "B" readState).2.2.2.2.2
     ⟨"A", "B", "t0"⟩ rfl (by simp) (by simp)⟩

/-! ### Join and the already-paired guard -/

theorem deviceIsPaired_mset1 (d k : String) (p : Pair) (l : List (String × Pair))
    (h : p.device1Id = d) : deviceIsPaired d (mset k p l) = true := by
  unfold deviceIsPaired
  rw [List.any_eq_true]
  exact ⟨(k, p), mem_mset_self k p l, by simp [h]⟩

theorem deviceIsPaired_mset2 (d k : String) (p : Pair) (l : List (String × Pair))
    (h : p.device2Id = d) : deviceIsPaired d (mset k p l) = true := by
  unfold deviceIsPaired
  rw [List.any_eq_true]
  exact ⟨(k, p), mem_mset_self k p l, by simp [h]⟩

theorem join_ok_state (now : Nat) (freshPairId nowIso deviceId code : String)
    (s : ServerState) (pc : PendingCode)
    (h1 : ¬(deviceId = "" ∨ code = ""))
    (hnp : deviceIsPaired deviceId s.pairs = false)
    (hlk' : mlookup code (cleanupExpiredCodes now s).pendingCodes = some pc)
    (hexp : ¬ pc.expiresAt < now)
    (hself : pc.deviceId ≠ deviceId) :
    pairJoin now freshPairId nowIso deviceId code s
      = ({ cleanupExpiredCodes now s with pairs := mset freshPairId ⟨pc.deviceId, deviceId, nowIso⟩ (cleanupExpiredCodes now s).pairs, messages := mset freshPairId [] (cleanupExpiredCodes now s).messages, pendingCodes := mset code { pc with pairId := some freshPairId } (cleanupExpiredCodes now s).pendingCodes },
         .ok ⟨freshPairId, deviceId, pc.deviceId⟩) := by
  have hnp' : deviceIsPaired deviceId (cleanupExpiredCodes now s).pairs = false := hnp
  simp only [pairJoin]
  rw [if_neg h1, if_neg (by rw [hnp']; simp)]
  simp only [hlk']
  rw [if_neg hexp, if_neg hself]

/-- C7: joining a pending, unexpired code with the code owner's own
device id fails with 400 "Cannot pair with yourself" and, beyond the
lazy expiry sweep, changes nothing: pairs, messages and typing maps are
untouched, no pair is created, no message list is initialized, and the
code's entry — in particular its bound pairId — is exactly as before. -/
theorem C7_self_join (now : Nat) (freshPairId nowIso deviceId code : String)
    (s : ServerState) (pc : PendingCode)
    (h1 : ¬(deviceId = "" ∨ code = ""))
    (hnp : deviceIsPaired deviceId s.pairs = false)
    (hlk : mlookup code s.pendingCodes = some pc)
    (hexp : ¬ pc.expiresAt < now)
    (hself : pc.deviceId = deviceId) :
    pairJoin now freshPairId nowIso deviceId code s
      = (cleanupExpiredCodes now s, .err 400 "Cannot pair with yourself")
  ∧ (pairJoin now freshPairId nowIso deviceId code s).1.pairs = s.pairs
  ∧ (pairJoin now freshPairId nowIso deviceId code s).1.messages = s.messages
  ∧ (pairJoin now freshPairId nowIso deviceId code s).1.typingIndicators = s.typingIndicators
  ∧ mlookup code (pairJoin now freshPairId nowIso deviceId code s).1.pendingCodes = some pc := by
  have hnp' : deviceIsPaired deviceId (cleanupExpiredCodes now s).pairs = false := hnp
  have hlk' : mlookup code (cleanupExpiredCodes now s).pendingCodes = some pc :=
    mlookup_filter_of_pos _ hlk (by simp [hexp])
  have hmain : pairJoin now freshPairId nowIso deviceId code s
      = (cleanupExpiredCodes now s, .err 400 "Cannot pair with yourself") := by
    simp only [pairJoin]
    rw [if_neg h1, if_neg (by rw [hnp']; simp)]
    simp only [hlk']
    rw [if_neg hexp, if_pos hself]
  refine ⟨hmain, ?_, ?_, ?_, ?_⟩
  · rw [hmain]
    rfl
  · rw [hmain]
    rfl
  · rw [hmain]
    rfl
  · rw [hmain]
    exact hlk'

/-- Concrete state for the C7 witness: device A owns pending code 1234. -/
def selfJoinState : ServerState :=
  ⟨[("1234", ⟨"A", 100, none⟩)], [], [], []⟩

theorem C7_self_join_witness :
    ¬(("A" : String) = "" ∨ ("1234" : String) = "")
  ∧ deviceIsPaired "A" selfJoinState.pairs = false
  ∧ mlookup "1234" selfJoinState.pendingCodes = some ⟨"A", 100, none⟩
  ∧ ¬(PendingCode.mk "A" 100 none).expiresAt < 0
  ∧ (PendingCode.mk "A" 100 none).deviceId = "A"
  ∧ pairJoin 0 "P1" "t" "A" "1234" selfJoinState
      = (cleanupExpiredCodes 0 selfJoinState, .err 400 "Cannot pair with yourself") :=
  ⟨by simp, rfl, rfl, by simp, rfl,
   (C7_self_join 0 "P1" "t" "A" "1234" selfJoinState ⟨"A", 100, none⟩
     (by simp) rfl rfl (by simp) rfl).1⟩

/-- C8: a code issued at time T carries expiresAt = T plus 7 minutes; a
join at any strictly later time finds the entry removed by the expiry
sweep that opens the handler and fails with 404 "Invalid or expired
code"; no pair is created and the code is gone from the table. -/
theorem C8_expired_join (now T : Nat) (freshPairId nowIso deviceId code : String)
    (s : ServerState) (pc : PendingCode)
    (h1 : ¬(deviceId = "" ∨ code = ""))
    (hnp : deviceIsPaired deviceId s.pairs = false)
    (hnd : keysNodup s.pendingCodes)
    (hlk : mlookup code s.pendingCodes = some pc)
    (hiss : pc.expiresAt = T + 7 * 60 * 1000)
    (hlate : T + 7 * 60 * 1000 < now) :
    pairJoin now freshPairId nowIso deviceId code s
      = (cleanupExpiredCodes now s, .err 404 "Invalid or expired code")
  ∧ (pairJoin now freshPairId nowIso deviceId code s).1.pairs = s.pairs
  ∧ mlookup code (pairJoin now freshPairId nowIso deviceId code s).1.pendingCodes = none := by
  have hnp' : deviceIsPaired deviceId (cleanupExpiredCodes now s).pairs = false := hnp
  have hnone : mlookup code (cleanupExpiredCodes now s).pendingCodes = none :=
    mlookup_filter_none _ hnd hlk (by simp only [hiss]; simp [hlate])
  have hmain : pairJoin now freshPairId nowIso deviceId code s
      = (cleanupExpiredCodes now s, .err 404 "Invalid or expired code") := by
    simp only [pairJoin]
    rw [if_neg h1, if_neg (by rw [hnp']; simp)]
    simp only [hnone]
  refine ⟨hmain, ?_, ?_⟩
  · rw [hmain]
    rfl
  · rw [hmain]
    exact hnone

/-- Concrete state for the C8 witness: code 1234 issued at T = 0, so it
expires at 420000 ms; the join happens at 420001 ms. -/
def expiredJoinState : ServerState :=
  ⟨[("1234", ⟨"A", 420000, none⟩)], [], [], []⟩

theorem C8_expired_join_witness :
    ¬(("B" : String) = "" ∨ ("1234" : String) = "")
  ∧ deviceIsPaired "B" expiredJoinState.pairs = false
  ∧ keysNodup expiredJoinState.pendingCodes
  ∧ mlookup "1234" expiredJoinState.pendingCodes = some ⟨"A", 420000, none⟩
  ∧ (PendingCode.mk "A" 420000 none).expiresAt = 0 + 7 * 60 * 1000
  ∧ 0 + 7 * 60 * 1000 < 420001
  ∧ pairJoin 420001 "P1" "t" "B" "1234" expiredJoinState
      = (cleanupExpiredCodes 420001 expiredJoinState, .err 404 "Invalid or expired code") :=
  ⟨by simp, rfl, by simp [keysNodup, expiredJoinState], rfl, by simp, by omega,
   (C8_expired_join 420001 0 "P1" "t" "B" "1234" expiredJoinState ⟨"A", 420000, none⟩
     (by simp) rfl (by simp [keysNodup, expiredJoinState]) rfl (by simp) (by omega)).1⟩

/-- C4: joining an unexpired pending code with a distinct, unpaired
device succeeds: the response carries the fresh pair id and both device
ids, the new Pair holds exactly the code owner and the joiner, an empty
message list is initialized under the new pair id, and on the resulting
state every well-formed generate or join request by either member fails
with 400 "Device already paired" for as long as the pair exists. -/
theorem C4_join_success (now : Nat) (freshPairId nowIso deviceId code : String)
    (s : ServerState) (pc : PendingCode)
    (hd : deviceId ≠ "") (hc : code ≠ "") (ho : pc.deviceId ≠ "")
    (hnpJ : deviceIsPaired deviceId s.pairs = false)
    (hnpO : deviceIsPaired pc.deviceId s.pairs = false)
    (hlk : mlookup code s.pendingCodes = some pc)
    (hexp : ¬ pc.expiresAt < now)
    (hself : pc.deviceId ≠ deviceId) :
    (pairJoin now freshPairId nowIso deviceId code s).2
      = ApiResponse.ok ⟨freshPairId, deviceId, pc.deviceId⟩
  ∧ mlookup freshPairId (pairJoin now freshPairId nowIso deviceId code s).1.pairs
      = some ⟨pc.deviceId, deviceId, nowIso⟩
  ∧ mlookup freshPairId (pairJoin now freshPairId nowIso deviceId code s).1.messages
      = some []
  ∧ (∀ (now' : Nat) (rands : Nat → Nat),
      (pairGenerate now' rands deviceId (pairJoin now freshPairId nowIso deviceId code s).1).2
        = ApiResponse.err 400 "Device already paired")
  ∧ (∀ (now' : Nat) (rands : Nat → Nat),
      (pairGenerate now' rands pc.deviceId (pairJoin now freshPairId nowIso deviceId code s).1).2
        = ApiResponse.err 400 "Device already paired")
  ∧ (∀ (now' : Nat) (f i c2 : String), c2 ≠ "" →
      (pairJoin now' f i deviceId c2 (pairJoin now freshPairId nowIso deviceId code s).1).2
        = ApiResponse.err 400 "Device already paired")
  ∧ (∀ (now' : Nat) (f i c2 : String), c2 ≠ "" →
      (pairJoin now' f i pc.deviceId c2 (pairJoin now freshPairId nowIso deviceId code s).1).2
        = ApiResponse.err 400 "Device already paired") := by
  have h1 : ¬(deviceId = "" ∨ code = "") := by
    intro h
    rcases h with h | h
    · exact hd h
    · exact hc h
  have hlk' : mlookup code (cleanupExpiredCodes now s).pendingCodes = some pc :=
    mlookup_filter_of_pos _ hlk (by simp [hexp])
  have hmain := join_ok_state now freshPairId nowIso deviceId code s pc h1 hnpJ hlk' hexp hself
  have hpairsJ : (pairJoin now freshPairId nowIso deviceId code s).1.pairs
      = mset freshPairId ⟨pc.deviceId, deviceId, nowIso⟩ s.pairs := by
    rw [hmain]
    rfl
  have hpairedJ : deviceIsPaired deviceId (pairJoin now freshPairId nowIso deviceId code s).1.pairs = true := by
    rw [hpairsJ]
    exact deviceIsPaired_mset2 deviceId freshPairId _ s.pairs rfl
  have hpairedO : deviceIsPaired pc.deviceId (pairJoin now freshPairId nowIso deviceId code s).1.pairs = true := by
    rw [hpairsJ]
    exact deviceIsPaired_mset1 pc.deviceId freshPairId _ s.pairs rfl
  refine ⟨?_, ?_, ?_, ?_, ?_, ?_, ?_⟩
  · rw [hmain]
  · rw [hpairsJ]
    exact mlookup_mset_self freshPairId _ _
  · rw [hmain]
    exact mlookup_mset_self freshPairId _ _
  · intro now' rands
    simp only [pairGenerate]
    rw [if_neg hd, if_pos (show deviceIsPaired deviceId (cleanupExpiredCodes now' (pairJoin now freshPairId nowIso deviceId code s).1).pairs = true from hpairedJ)]
  · intro now' rands
    simp only [pairGenerate]
    rw [if_neg ho, if_pos (show deviceIsPaired pc.deviceId (cleanupExpiredCodes now' (pairJoin now freshPairId nowIso deviceId code s).1).pairs = true from hpairedO)]
  · intro now' f i c2 hc2
    have h1' : ¬(deviceId = "" ∨ c2 = "") := by
      intro h
      rcases h with h | h
      · exact hd h
      · exact hc2 h
    generalize hSJ : (pairJoin now freshPairId nowIso deviceId code s).1 = SJ at hpairedJ ⊢
    simp only [pairJoin]
    rw [if_neg h1', if_pos (show deviceIsPaired deviceId (cleanupExpiredCodes now' SJ).pairs = true from hpairedJ)]
  · intro now' f i c2 hc2
    have h1' : ¬(pc.deviceId = "" ∨ c2 = "") := by
      intro h
      rcases h with h | h
      · exact ho h
      · exact hc2 h
    generalize hSJ : (pairJoin now freshPairId nowIso deviceId code s).1 = SJ at hpairedO ⊢
    simp only [pairJoin]
    rw [if_neg h1', if_pos (show deviceIsPaired pc.deviceId (cleanupExpiredCodes now' SJ).pairs = true from hpairedO)]

/-- Concrete state for the C4 witness: device A owns a pending
unexpired code 1234 and device B joins it. -/
def joinState : ServerState :=
  ⟨[("1234", ⟨"A", 420000, none⟩)], [], [], []⟩

theorem C4_join_success_witness :
    ("B" : String) ≠ "" ∧ ("1234" : String) ≠ "" ∧ (PendingCode.mk "A" 420000 none).deviceId ≠ ""
  ∧ deviceIsPaired "B" joinState.pairs = false
  ∧ deviceIsPaired (PendingCode.mk "A" 420000 none).deviceId joinState.pairs = false
  ∧ mlookup "1234" joinState.pendingCodes = some ⟨"A", 420000, none⟩
  ∧ ¬ (PendingCode.mk "A" 420000 none).expiresAt < 5
  ∧ (PendingCode.mk "A" 420000 none).deviceId ≠ "B"
  ∧ (pairJoin 5 "P1" "t" "B" "1234" joinState).2
      = ApiResponse.ok ⟨"P1", "B", (PendingCode.mk "A" 420000 none).deviceId⟩ :=
  ⟨by simp, by simp, by simp, rfl, rfl, rfl, by simp, by simp,
   (C4_join_success 5 "P1" "t" "B" "1234" joinState ⟨"A", 420000, none⟩
     (by simp) (by simp) (by simp) rfl rfl rfl (by simp) (by simp)).1⟩

/-! ### The generate retry loop -/

theorem genLoop_all_collide (p : List (String × PendingCode)) (rands : Nat → Nat) :
    ∀ (fuel i : Nat), i ≤ 99 → i + fuel = 100 →
    (∀ k, i ≤ k → k < 99 → mhas (generateCode (rands k)) p = true) →
    genLoop p rands i fuel = (generateCode (rands 99), 100) := by
  intro fuel
  induction fuel with
  | zero =>
    intro i hi hsum hall
    omega
  | succ fuel ih =>
    intro i hi hsum hall
    by_cases h99 : i = 99
    · subst h99
      simp only [genLoop]
      rw [if_neg (by simp)]
    · have hi' : i < 99 := by omega
      simp only [genLoop]
      rw [if_pos (by rw [hall i (le_refl i) hi']; simp; omega)]
      exact ih (i + 1) (by omega) (by omega) (fun k hk1 hk2 => hall k (by omega) hk2)

theorem genLoop_first_free (p : List (String × PendingCode)) (rands : Nat → Nat) (j : Nat)
    (hj : j ≤ 99)
    (hfree : mhas (generateCode (rands j)) p = false) :
    ∀ (fuel i : Nat), i ≤ j → i + fuel = 100 →
    (∀ k, i ≤ k → k < j → mhas (generateCode (rands k)) p = true) →
    genLoop p rands i fuel = (generateCode (rands j), j + 1) := by
  intro fuel
  induction fuel with
  | zero =>
    intro i hi hsum hall
    omega
  | succ fuel ih =>
    intro i hi hsum hall
    by_cases hij : i = j
    · subst hij
      simp only [genLoop]
      rw [if_neg (by rw [hfree]; simp)]
    · have hij' : i < j := by omega
      simp only [genLoop]
      rw [if_pos (by rw [hall i (le_refl i) hij']; simp; omega)]
      exact ih (i + 1) (by omega) (by omega) (fun k hk1 hk2 => hall k (by omega) hk2)

theorem genLoop_sound (p : List (String × PendingCode)) (rands : Nat → Nat) :
    ∀ (fuel i : Nat), 100 ≤ i + fuel →
    (genLoop p rands i fuel).2 < 100 →
    mhas (genLoop p rands i fuel).1 p = false
    ∧ ∃ k, (genLoop p rands i fuel).1 = generateCode (rands k) := by
  intro fuel
  induction fuel with
  | zero =>
    intro i hsum hlt
    simp only [genLoop] at hlt
    omega
  | succ fuel ih =>
    intro i hsum hlt
    simp only [genLoop] at hlt ⊢
    by_cases hcond : (mhas (generateCode (rands i)) p && decide (i + 1 < 100)) = true
    · rw [if_pos hcond] at hlt ⊢
      exact ih (i + 1) (by omega) hlt
    · rw [if_neg hcond] at hlt ⊢
      simp only [Bool.and_eq_true, decide_eq_true_eq, not_and] at hcond
      refine ⟨?_, ⟨i, rfl⟩⟩
      cases hm : mhas (generateCode (rands i)) p
      · rfl
      · exact absurd (by simpa using hlt) (hcond hm)

theorem generate_ok_state (now : Nat) (rands : Nat → Nat) (deviceId : String)
    (s : ServerState) (r : GenerateOk)
    (h : (pairGenerate now rands deviceId s).2 = ApiResponse.ok r) :
    pairGenerate now rands deviceId s
      = ({ cleanupExpiredCodes now s with pendingCodes := mset (genLoop (cleanupExpiredCodes now s).pendingCodes rands 0 100).1 ⟨deviceId, now + 7 * 60 * 1000, none⟩ (cleanupExpiredCodes now s).pendingCodes },
         ApiResponse.ok ⟨(genLoop (cleanupExpiredCodes now s).pendingCodes rands 0 100).1, now + 7 * 60 * 1000⟩)
  ∧ (genLoop (cleanupExpiredCodes now s).pendingCodes rands 0 100).2 < 100 := by
  simp only [pairGenerate] at h ⊢
  split at h
  next h1 => simp at h
  next h1 =>
    rw [if_neg h1]
    split at h
    next h2 => simp at h
    next h2 =>
      rw [if_neg h2]
      split at h
      next h3 => simp at h
      next h3 =>
        rw [if_neg h3]
        exact ⟨rfl, by omega⟩

/-! ### Codes are 4-digit numerals -/

theorem reprLenChunk1 : ∀ n : Nat, n < 1000 → (Nat.repr (1000 + n)).length = 4 := by decide

theorem reprLenChunk2 : ∀ n : Nat, n < 1000 → (Nat.repr (2000 + n)).length = 4 := by decide

theorem reprLenChunk3 : ∀ n : Nat, n < 1000 → (Nat.repr (3000 + n)).length = 4 := by decide

theorem reprLenChunk4 : ∀ n : Nat, n < 1000 → (Nat.repr (4000 + n)).length = 4 := by decide

theorem reprLenChunk5 : ∀ n : Nat, n < 1000 → (Nat.repr (5000 + n)).length = 4 := by decide

theorem reprLenChunk6 : ∀ n : Nat, n < 1000 → (Nat.repr (6000 + n)).length = 4 := by decide

theorem reprLenChunk7 : ∀ n : Nat, n < 1000 → (Nat.repr (7000 + n)).length = 4 := by decide

theorem reprLenChunk8 : ∀ n : Nat, n < 1000 → (Nat.repr (8000 + n)).length = 4 := by decide

theorem reprLenChunk9 : ∀ n : Nat, n < 1000 → (Nat.repr (9000 + n)).length = 4 := by decide

theorem repr_length_four (m : Nat) (hm : m < 9000) :
    (Nat.repr (1000 + m)).length = 4 := by
  have h0 : m % 1000 < 1000 := Nat.mod_lt _ (by norm_num)
  have h9 : m / 1000 = 0 ∨ m / 1000 = 1 ∨ m / 1000 = 2 ∨ m / 1000 = 3 ∨ m / 1000 = 4 ∨ m / 1000 = 5 ∨ m / 1000 = 6 ∨ m / 1000 = 7 ∨ m / 1000 = 8 := by omega
  rcases h9 with h | h | h | h | h | h | h | h | h
  · rw [show 1000 + m = 1000 + m % 1000 by omega]
    exact reprLenChunk1 _ h0
  · rw [show 1000 + m = 2000 + m % 1000 by omega]
    exact reprLenChunk2 _ h0
  · rw [show 1000 + m = 3000 + m % 1000 by omega]
    exact reprLenChunk3 _ h0
  · rw [show 1000 + m = 4000 + m % 1000 by omega]
    exact reprLenChunk4 _ h0
  · rw [show 1000 + m = 5000 + m % 1000 by omega]
    exact reprLenChunk5 _ h0
  · rw [show 1000 + m = 6000 + m % 1000 by omega]
    exact reprLenChunk6 _ h0
  · rw [show 1000 + m = 7000 + m % 1000 by omega]
    exact reprLenChunk7 _ h0
  · rw [show 1000 + m = 8000 + m % 1000 by omega]
    exact reprLenChunk8 _ h0
  · rw [show 1000 + m = 9000 + m % 1000 by omega]
    exact reprLenChunk9 _ h0

/-- Concrete state for the C5 counterexample: one unexpired pending
code 1000; the draw stream collides ("1000") on the first 99 attempts
and produces the free code "1001" on the 100th. -/
def genCollideState : ServerState :=
  ⟨[("1000", ⟨"X", 5, none⟩)], [], [], []⟩

/-- Draw stream of the C5 counterexample. -/
def genCollideDraws : Nat → Nat := fun i => if i < 99 then 0 else 1

/-- C5 counterexample: with 99 colliding draws followed by a free draw,
the 100th attempt produces the candidate "1001", which does not collide
with any pending code, yet generate still fails with 500 — so it is not
true that the call succeeds whenever some attempt among the 100 draws a
non-colliding candidate. -/
theorem C5_counterexample :
    (pairGenerate 0 genCollideDraws "D" genCollideState).2
      = ApiResponse.err 500 "Failed to generate unique code"
  ∧ generateCode (genCollideDraws 99) = "1001"
  ∧ mhas "1001" (cleanupExpiredCodes 0 genCollideState).pendingCodes = false :=
  ⟨rfl, rfl, rfl⟩

/-- C5 (amended): generate fails with 500 GenerationExhausted whenever
each of the first 99 attempts draws a candidate colliding with a
pending, unexpired code — the 100th candidate is drawn but never used,
collision or not; and whenever some attempt among the first 99 draws a
non-colliding candidate, the call succeeds and returns the first such
candidate. -/
theorem C5_generate_retry (now : Nat) (rands : Nat → Nat) (deviceId : String)
    (s : ServerState)
    (hd : deviceId ≠ "")
    (hnp : deviceIsPaired deviceId s.pairs = false) :
    ((∀ k, k < 99 → mhas (generateCode (rands k)) (cleanupExpiredCodes now s).pendingCodes = true) →
      (pairGenerate now rands deviceId s).2 = ApiResponse.err 500 "Failed to generate unique code")
  ∧ (∀ j, j < 99 →
      (∀ k, k < j → mhas (generateCode (rands k)) (cleanupExpiredCodes now s).pendingCodes = true) →
      mhas (generateCode (rands j)) (cleanupExpiredCodes now s).pendingCodes = false →
      (pairGenerate now rands deviceId s).2
        = ApiResponse.ok ⟨generateCode (rands j), now + 7 * 60 * 1000⟩) := by
  have hnp' : deviceIsPaired deviceId (cleanupExpiredCodes now s).pairs = false := hnp
  constructor
  · intro hall
    simp only [pairGenerate]
    rw [if_neg hd, if_neg (by rw [hnp']; simp)]
    rw [genLoop_all_collide (cleanupExpiredCodes now s).pendingCodes rands 100 0 (by omega) (by omega) (fun k hk1 hk2 => hall k hk2)]
    rw [if_pos (by simp)]
  · intro j hj hall hfree
    simp only [pairGenerate]
    rw [if_neg hd, if_neg (by rw [hnp']; simp)]
    rw [genLoop_first_free (cleanupExpiredCodes now s).pendingCodes rands j (by omega) hfree 100 0 (by omega) (by omega) (fun k hk1 hk2 => hall k hk2)]
    rw [if_neg (by simp; omega)]

/-- Concrete state for the C5 witness: no pending codes at all, so the
very first draw is free. -/
def genFreeState : ServerState := ⟨[], [], [], []⟩

theorem C5_generate_retry_witness :
    ("D" : String) ≠ ""
  ∧ deviceIsPaired "D" genFreeState.pairs = false
  ∧ (0 : Nat) < 99
  ∧ mhas (generateCode ((fun _ => 0) 0)) (cleanupExpiredCodes 5 genFreeState).pendingCodes = false
  ∧ (pairGenerate 5 (fun _ => 0) "D" genFreeState).2
      = ApiResponse.ok ⟨generateCode ((fun _ => 0) 0), 5 + 7 * 60 * 1000⟩ :=
  ⟨by simp, rfl, by omega, rfl,
   (C5_generate_retry 5 (fun _ => 0) "D" genFreeState (by simp) rfl).2
     0 (by omega) (fun k hk => absurd hk (by omega)) rfl⟩

/-- C6: every code returned by a successful generate is the decimal
numeral of a value between 1000 and 9999 and is 4 characters long; the
code did not collide with any pending code at insertion time, the new
pending table is exactly the swept table with the fresh code added, and
key uniqueness of the pending table is preserved. -/
theorem C6_code_unique (now : Nat) (rands : Nat → Nat) (deviceId : String)
    (s : ServerState) (r : GenerateOk)
    (h : (pairGenerate now rands deviceId s).2 = ApiResponse.ok r)
    (hnd : keysNodup s.pendingCodes) :
    (∃ n, 1000 ≤ n ∧ n ≤ 9999 ∧ r.code = Nat.repr n ∧ r.code.length = 4)
  ∧ mhas r.code (cleanupExpiredCodes now s).pendingCodes = false
  ∧ (pairGenerate now rands deviceId s).1.pendingCodes
      = mset r.code ⟨deviceId, now + 7 * 60 * 1000, none⟩ (cleanupExpiredCodes now s).pendingCodes
  ∧ keysNodup (pairGenerate now rands deviceId s).1.pendingCodes := by
  obtain ⟨heq, hlt⟩ := generate_ok_state now rands deviceId s r h
  have hr : r = ⟨(genLoop (cleanupExpiredCodes now s).pendingCodes rands 0 100).1, now + 7 * 60 * 1000⟩ := by
    rw [heq] at h
    simp only [] at h
    cases h
    rfl
  obtain ⟨hfree, k, hk⟩ := genLoop_sound (cleanupExpiredCodes now s).pendingCodes rands 100 0 (by omega) hlt
  have hmod : rands k % 9000 < 9000 := Nat.mod_lt _ (by norm_num)
  refine ⟨⟨1000 + rands k % 9000, by omega, by omega, ?_, ?_⟩, ?_, ?_, ?_⟩
  · rw [hr]
    exact hk
  · rw [hr]
    show ((genLoop (cleanupExpiredCodes now s).pendingCodes rands 0 100).1).length = 4
    rw [hk]
    exact repr_length_four (rands k % 9000) hmod
  · rw [hr]
    exact hfree
  · rw [hr, heq]
  · rw [heq]
    show keysNodup (mset (genLoop (cleanupExpiredCodes now s).pendingCodes rands 0 100).1 ⟨deviceId, now + 7 * 60 * 1000, none⟩ (cleanupExpiredCodes now s).pendingCodes)
    exact keysNodup_mset _ _ _ (keysNodup_filter _ s.pendingCodes hnd)

/-- Concrete state for the C6 witness: empty pending table. -/
def genUniqueState : ServerState := ⟨[], [], [], []⟩

theorem C6_code_unique_witness :
    (pairGenerate 0 (fun _ => 0) "D" genUniqueState).2
      = ApiResponse.ok ⟨"1000", 0 + 7 * 60 * 1000⟩
  ∧ keysNodup genUniqueState.pendingCodes
  ∧ mhas "1000" (cleanupExpiredCodes 0 genUniqueState).pendingCodes = false :=
  ⟨rfl, by simp [keysNodup, genUniqueState],
   ((C6_code_unique 0 (fun _ => 0) "D" genUniqueState ⟨"1000", 0 + 7 * 60 * 1000⟩ rfl
      (by simp [keysNodup, genUniqueState])).2).1⟩

/-! ### Typing indicator liveness -/

theorem isTyping_after_set (now' : Nat) (pairId d : String) (s' : ServerState)
    (innerList : List (String × Nat)) (t : Nat)
    (hset : mlookup pairId s'.typingIndicators = some innerList)
    (hlook : mlookup d innerList = some t) :
    isTyping now' pairId d s' = if t = 0 then false else decide (now' - t < 3000) := by
  unfold isTyping
  simp only [hset, hlook]

theorem isTyping_none_inner (now' : Nat) (pairId d : String) (s' : ServerState)
    (innerList : List (String × Nat))
    (hset : mlookup pairId s'.typingIndicators = some innerList)
    (hlook : mlookup d innerList = none) :
    isTyping now' pairId d s' = false := by
  unfold isTyping
  simp only [hset, hlook]

theorem poll_ok_shape (now : Nat) (pairId viewer : String) (s : ServerState) (pair : Pair)
    (h1 : ¬(pairId = "" ∨ viewer = ""))
    (hlk : mlookup pairId s.pairs = some pair)
    (hv : pair.device1Id = viewer) :
    (pollMessages now pairId viewer s).2
      = ApiResponse.ok ⟨(mlookup pairId s.messages).getD [], isTyping now pairId pair.device2Id s⟩ := by
  simp only [pollMessages]
  rw [if_neg h1]
  simp only [hlk]
  rw [if_neg (by intro hcon; exact hcon.1 hv)]
  rw [if_pos hv]

theorem poll_ok_shape2 (now : Nat) (pairId viewer : String) (s : ServerState) (pair : Pair)
    (h1 : ¬(pairId = "" ∨ viewer = ""))
    (hlk : mlookup pairId s.pairs = some pair)
    (hv : pair.device2Id = viewer)
    (hne : pair.device1Id ≠ viewer) :
    (pollMessages now pairId viewer s).2
      = ApiResponse.ok ⟨(mlookup pairId s.messages).getD [], isTyping now pairId pair.device1Id s⟩ := by
  simp only [pollMessages]
  rw [if_neg h1]
  simp only [hlk]
  rw [if_neg (by intro hcon; exact hcon.2 hv)]
  rw [if_neg hne]

theorem setTyping_ok_state (now : Nat) (pairId deviceId : String) (typing : Bool)
    (s : ServerState) (pair : Pair)
    (h1 : ¬(pairId = "" ∨ deviceId = ""))
    (hlk : mlookup pairId s.pairs = some pair)
    (hauth : ¬(pair.device1Id ≠ deviceId ∧ pair.device2Id ≠ deviceId)) :
    setTyping now pairId deviceId typing s
      = ({ s with typingIndicators := mset pairId (if typing then mset deviceId now ((mlookup pairId s.typingIndicators).getD []) else mdel deviceId ((mlookup pairId s.typingIndicators).getD [])) s.typingIndicators },
         ApiResponse.ok true) := by
  simp only [setTyping]
  rw [if_neg h1]
  simp only [hlk]
  rw [if_neg hauth]

/-- C9: in a pair whose two members are A and B — stored in either
order — after B sets typing at time t (a real clock value, so t is
positive), a poll by A strictly less than 3 seconds later reports the
partner as typing; a poll 3 or more seconds after t with no refresh
reports not typing; and immediately after B sends setTyping(false) —
which removes the mark rather than waiting for expiry — every poll by A
reports not typing. -/
theorem C9_typing_window (t : Nat) (pairId A B : String) (s : ServerState) (pair : Pair)
    (h1 : ¬(pairId = "" ∨ A = "")) (h1B : ¬(pairId = "" ∨ B = ""))
    (hlk : mlookup pairId s.pairs = some pair)
    (hAB : A ≠ B)
    (hmem : (pair.device1Id = A ∧ pair.device2Id = B) ∨ (pair.device1Id = B ∧ pair.device2Id = A))
    (hnd : keysNodup ((mlookup pairId s.typingIndicators).getD []))
    (ht : 0 < t) :
    (∀ now1 : Nat, now1 - t < 3000 →
      (pollMessages now1 pairId A (setTyping t pairId B true s).1).2
        = ApiResponse.ok ⟨(mlookup pairId (setTyping t pairId B true s).1.messages).getD [], true⟩)
  ∧ (∀ now2 : Nat, t + 3000 ≤ now2 →
      (pollMessages now2 pairId A (setTyping t pairId B true s).1).2
        = ApiResponse.ok ⟨(mlookup pairId (setTyping t pairId B true s).1.messages).getD [], false⟩)
  ∧ (∀ t2 now3 : Nat,
      (pollMessages now3 pairId A (setTyping t2 pairId B false ((setTyping t pairId B true s).1)).1).2
        = ApiResponse.ok ⟨(mlookup pairId (setTyping t2 pairId B false ((setTyping t pairId B true s).1)).1.messages).getD [], false⟩) := by
  have hauthB : ¬(pair.device1Id ≠ B ∧ pair.device2Id ≠ B) := by
    rcases hmem with ⟨hd1, hd2⟩ | ⟨hd1, hd2⟩
    · exact fun hcon => hcon.2 hd2
    · exact fun hcon => hcon.1 hd1
  have hpoll : ∀ (now' : Nat) (s' : ServerState), mlookup pairId s'.pairs = some pair →
      (pollMessages now' pairId A s').2
        = ApiResponse.ok ⟨(mlookup pairId s'.messages).getD [], isTyping now' pairId B s'⟩ := by
    intro now' s' hlk'
    rcases hmem with ⟨hd1, hd2⟩ | ⟨hd1, hd2⟩
    · rw [poll_ok_shape now' pairId A s' pair h1 hlk' hd1, hd2]
    · rw [poll_ok_shape2 now' pairId A s' pair h1 hlk' hd2 (by rw [hd1]; exact fun hq => hAB hq.symm), hd1]
  have e1 := setTyping_ok_state t pairId B true s pair h1B hlk hauthB
  rw [if_pos rfl] at e1
  have hS1lk : mlookup pairId (setTyping t pairId B true s).1.pairs = some pair := by
    rw [e1]
    exact hlk
  have hset1 : mlookup pairId (setTyping t pairId B true s).1.typingIndicators
      = some (mset B t ((mlookup pairId s.typingIndicators).getD [])) := by
    rw [e1]
    exact mlookup_mset_self _ _ _
  have hlook1 : mlookup B (mset B t ((mlookup pairId s.typingIndicators).getD [])) = some t :=
    mlookup_mset_self _ _ _
  refine ⟨?_, ?_, ?_⟩
  · intro now1 hwin
    rw [hpoll now1 _ hS1lk]
    rw [isTyping_after_set now1 pairId B _ _ t hset1 hlook1]
    rw [if_neg (by omega)]
    simp [hwin]
  · intro now2 hwin
    rw [hpoll now2 _ hS1lk]
    rw [isTyping_after_set now2 pairId B _ _ t hset1 hlook1]
    rw [if_neg (by omega)]
    have hge : ¬ (now2 - t < 3000) := by omega
    simp [hge]
  · intro t2 now3
    have e2 := setTyping_ok_state t2 pairId B false (setTyping t pairId B true s).1 pair h1B hS1lk hauthB
    rw [if_neg (by simp)] at e2
    have hS2lk : mlookup pairId (setTyping t2 pairId B false ((setTyping t pairId B true s).1)).1.pairs = some pair := by
      rw [e2]
      exact hS1lk
    have hset2 : mlookup pairId (setTyping t2 pairId B false ((setTyping t pairId B true s).1)).1.typingIndicators
        = some (mdel B ((mlookup pairId (setTyping t pairId B true s).1.typingIndicators).getD [])) := by
      rw [e2]
      exact mlookup_mset_self _ _ _
    have hnone : mlookup B (mdel B ((mlookup pairId (setTyping t pairId B true s).1.typingIndicators).getD [])) = none := by
      rw [show (mlookup pairId (setTyping t pairId B true s).1.typingIndicators).getD []
            = mset B t ((mlookup pairId s.typingIndicators).getD []) from by rw [hset1]; rfl]
      exact mlookup_mdel_self (keysNodup_mset B t _ hnd)
    rw [hpoll now3 _ hS2lk]
    rw [isTyping_none_inner now3 pairId B _ _ hset2 hnone]

/-- Concrete state for the C9 witness: a pair of A and B with no
messages and no typing marks. -/
def typingState : ServerState :=
  ⟨[], [("p", ⟨"A", "B", "t0"⟩)], [], []⟩

theorem C9_typing_window_witness :
    ¬(("p" : String) = "" ∨ ("B" : String) = "")
  ∧ ¬(("p" : String) = "" ∨ ("A" : String) = "")
  ∧ mlookup "p" typingState.pairs = some ⟨"A", "B", "t0"⟩
  ∧ ("B" : String) ≠ "A"
  ∧ ((Pair.mk "A" "B" "t0").device1Id = "A" ∧ (Pair.mk "A" "B" "t0").device2Id = "B")
  ∧ keysNodup ((mlookup "p" typingState.typingIndicators).getD [])
  ∧ (0 : Nat) < 10
  ∧ (100 : Nat) - 10 < 3000
  ∧ (pollMessages 100 "p" "B" (setTyping 10 "p" "A" true typingState).1).2
      = ApiResponse.ok ⟨(mlookup "p" (setTyping 10 "p" "A" true typingState).1.messages).getD [], true⟩ :=
  ⟨by simp, by simp, rfl, by simp, ⟨rfl, rfl⟩, by simp [keysNodup, typingState, mlookup], by omega, by omega,
   (C9_typing_window 10 "p" "B" "A" typingState ⟨"A", "B", "t0"⟩
     (by simp) (by simp) rfl (by simp) (Or.inr ⟨rfl, rfl⟩)
     (by simp [keysNodup, typingState, mlookup]) (by omega)).1
     100 (by omega)⟩

end CalcChat
